import Mathlib

/-!
Verification of the CRI proxy's dispatch, identifier-rewriting and
schema-conversion logic.

The schema conversions are embedded from
pkg/runtimeapis/v1_9/conversion.go.  The dispatcher and identifier codec
are modelled from the specification (sections 4.1, 4.4 and 4.5), which
the repository's test suite `pkg/proxy/proxy_test.go` exercises end to
end; backends are abstracted as functions, and the list of selectors a
request was forwarded to (the test journal) is returned alongside each
response.
-/

/- ## Version adapter (embedded from pkg/runtimeapis/v1_9/conversion.go) -/

/-- Tri-state namespace mode of the v1.12 CRI schema
(`v1_12.NamespaceMode`): `POD` is the default, `NODE` means the host
namespace, `CONTAINER` is v1.12-only. -/
inductive NamespaceMode
  | POD
  | CONTAINER
  | NODE
deriving DecidableEq, Repr

/-- The v1.9 `NamespaceOption` message: three host-namespace booleans. -/
structure NamespaceOption_v1_9 where
  HostNetwork : Bool
  HostPid : Bool
  HostIpc : Bool
deriving DecidableEq, Repr

/-- The v1.12 `NamespaceOption` message: three tri-state modes. -/
structure NamespaceOption_v1_12 where
  Network : NamespaceMode
  Pid : NamespaceMode
  Ipc : NamespaceMode
deriving DecidableEq, Repr

/-- The v1.9 `FilesystemUsage` message.  `StorageId` models the
`*StorageIdentifier` pointer (a UUID), `UsedBytes`/`InodesUsed` the
`*UInt64Value` pointers. -/
structure FilesystemUsage_v1_9 where
  Timestamp : Int
  StorageId : Option String
  UsedBytes : Option Nat
  InodesUsed : Option Nat
deriving DecidableEq, Repr

/-- The v1.12 `FilesystemUsage` message.  `FsId` models the
`*FilesystemIdentifier` pointer (a mount point). -/
structure FilesystemUsage_v1_12 where
  Timestamp : Int
  FsId : Option String
  UsedBytes : Option Nat
  InodesUsed : Option Nat
deriving DecidableEq, Repr

/-- Embeds `Convert_v1_12_FilesystemUsage_To_v1_9_FilesystemUsage`.  The Go
function fills a freshly zeroed out-struct and never assigns
`out.StorageId` (the source comments that the old UUID cannot be obtained
from the new mount-point `FsId`), so the result's `StorageId` is the zero
value `nil`. -/
def Convert_v1_12_FilesystemUsage_To_v1_9_FilesystemUsage
    (i : FilesystemUsage_v1_12) : FilesystemUsage_v1_9 :=
  { Timestamp := i.Timestamp
    StorageId := none
    UsedBytes := i.UsedBytes
    InodesUsed := i.InodesUsed }

/-- Embeds `Convert_v1_9_FilesystemUsage_To_v1_12_FilesystemUsage`; the Go
function never assigns `out.FsId`, so it stays `nil`. -/
def Convert_v1_9_FilesystemUsage_To_v1_12_FilesystemUsage
    (i : FilesystemUsage_v1_9) : FilesystemUsage_v1_12 :=
  { Timestamp := i.Timestamp
    FsId := none
    UsedBytes := i.UsedBytes
    InodesUsed := i.InodesUsed }

/-- Embeds `Convert_v1_12_NamespaceOption_To_v1_9_NamespaceOption`: each
v1.9 boolean is the comparison of the corresponding v1.12 mode with
`NODE`. -/
def Convert_v1_12_NamespaceOption_To_v1_9_NamespaceOption
    (i : NamespaceOption_v1_12) : NamespaceOption_v1_9 :=
  { HostNetwork := i.Network == NamespaceMode.NODE
    HostPid := i.Pid == NamespaceMode.NODE
    HostIpc := i.Ipc == NamespaceMode.NODE }

/-- Embeds `Convert_v1_9_NamespaceOption_To_v1_12_NamespaceOption`: each
mode starts as `POD` and is set to `NODE` when the corresponding boolean
is true. -/
def Convert_v1_9_NamespaceOption_To_v1_12_NamespaceOption
    (i : NamespaceOption_v1_9) : NamespaceOption_v1_12 :=
  { Network := if i.HostNetwork then NamespaceMode.NODE else NamespaceMode.POD
    Pid := if i.HostPid then NamespaceMode.NODE else NamespaceMode.POD
    Ipc := if i.HostIpc then NamespaceMode.NODE else NamespaceMode.POD }

/- ## Identifier codec (modelled from spec section 4.1) -/

/-- Helper: finds the first occurrence of `sep` in the third argument,
returning the (reversed-accumulator) part before it and the part after
it. -/
def splitFirstAux (sep : List Char) (pre : List Char) :
    List Char → Option (List Char × List Char)
  | [] => none
  | c :: cs =>
    if sep.isPrefixOf (c :: cs) then some (pre.reverse, (c :: cs).drop sep.length)
    else splitFirstAux sep (c :: pre) cs

/-- Splits a string on the first occurrence of `sep`; `none` when `sep`
does not occur. -/
def splitFirst (sep s : String) : Option (String × String) :=
  (splitFirstAux sep.toList [] s.toList).map (fun p => (String.mk p.1, String.mk p.2))

/-- Modelled from the spec: `encodeId(selector, inner)` returns `inner` if
the selector is empty, else `selector + "__" + inner` (spec 4.1; the
dispatcher source is not under src/). -/
def encodeId (sel inner : String) : String :=
  if sel = "" then inner else sel ++ "__" ++ inner

/-- Modelled from the spec: `decodeId(id)` splits on the first `__`; if
there is no `__` the selector is empty (spec 4.1). -/
def decodeId (id : String) : String × String :=
  match splitFirst "__" id with
  | some p => p
  | none => ("", id)

/-- Modelled from the spec: `encodeImage(selector, image)` returns `image`
if the selector is empty, else `selector + "/" + image` (spec 4.1). -/
def encodeImage (sel image : String) : String :=
  if sel = "" then image else sel ++ "/" ++ image

/-- A bare digest image reference starts with `sha256:`. -/
def isDigest (ref : String) : Bool :=
  "sha256:".toList.isPrefixOf ref.toList

/-- Modelled from the spec: the registry holds the ordered selectors of
the registered backends; the first is the primary, whose selector is the
empty string (spec 4.4; the registry source is not under src/). -/
structure Registry where
  selectors : List String
deriving DecidableEq, Repr

/-- A selector is registered when it occurs in the registry. -/
def Registry.has (r : Registry) (sel : String) : Bool :=
  r.selectors.contains sel

/-- The two-backend registry of the repository's tests: a primary and a
non-primary backend named `alt`. -/
def testRegistry : Registry :=
  { selectors := ["", "alt"] }

/-- Modelled from the spec: `decodeImage(ref)` splits on the first `/`
only if the left side is a registered non-primary selector; otherwise the
whole string belongs to the primary namespace (spec 4.1).  A bare digest
contains no `/` and therefore resolves to the primary. -/
def decodeImage (r : Registry) (ref : String) : String × String :=
  match splitFirst "/" ref with
  | some (l, rest) => if l != "" && r.has l then (l, rest) else ("", ref)
  | none => ("", ref)

/- ## Dispatcher (modelled from spec section 4.5) -/

/-- Outcome of a dispatched call: either a response or a gRPC error
message. -/
inductive ProxyResult (α : Type)
  | ok (value : α)
  | err (message : String)
deriving DecidableEq, Repr

/-- The well-known routing annotation key on `PodSandboxConfig`. -/
def targetRuntimeKey : String := "kubernetes.io/target-runtime"

/-- The parts of a `RunPodSandboxRequest` the dispatcher inspects: the
sandbox config annotation map. -/
structure RunPodSandboxRequest where
  annots : List (String × String)
deriving DecidableEq, Repr

/-- Go map lookup with the zero value `""` for a missing key. -/
def annotValue (annots : List (String × String)) (key : String) : String :=
  match annots.lookup key with
  | some v => v
  | none => ""

/-- The error surfaced for an unregistered selector (spec 4.4/6). -/
def unknownRuntimeError (sel : String) : String :=
  "criproxy: unknown runtime: \"" ++ sel ++ "\""

/-- The error surfaced when the image selector disagrees with the sandbox
selector (spec 4.1/4.5). -/
def wrongRuntimeError (ref : String) : String :=
  "criproxy: image \"" ++ ref ++ "\" is for a wrong runtime"

/-- Modelled from the spec: `RunPodSandbox` reads the selector from the
config annotation (empty means primary), fails with `unknown runtime` for
an unregistered selector, forwards to the one chosen backend and prefixes
the returned sandbox id with the selector (spec 4.5; the dispatcher
source is not under src/).  `backend` maps a selector to the sandbox id
that backend returns; the second component is the list of backends
contacted, in order. -/
def runPodSandbox (r : Registry) (backend : String → String)
    (req : RunPodSandboxRequest) : ProxyResult String × List String :=
  let sel := annotValue req.annots targetRuntimeKey
  if sel == "" || r.has sel then
    (ProxyResult.ok (encodeId sel (backend sel)), [sel])
  else
    (ProxyResult.err (unknownRuntimeError sel), [])

/-- Modelled from the spec: `CreateContainer` decodes the selector from
the sandbox id (authoritative) and from the image reference; a mismatch
fails with `wrong runtime`, a bare digest matches any selector.  The
sandbox id and image are forwarded stripped, and the returned container
id is prefixed with the sandbox selector (spec 4.5).  `backend` maps
(selector, stripped sandbox id, stripped image) to the container id that
backend returns. -/
def createContainer (r : Registry) (backend : String → String → String → String)
    (podSandboxId image : String) : ProxyResult String × List String :=
  let sd := decodeId podSandboxId
  let im := decodeImage r image
  if isDigest image || im.1 == sd.1 then
    (ProxyResult.ok (encodeId sd.1 (backend sd.1 sd.2 im.2)), [sd.1])
  else
    (ProxyResult.err (wrongRuntimeError image), [])

/-- A container as it appears in `ListContainers` responses. -/
structure Container where
  Id : String
  PodSandboxId : String
  Image : String
  ImageRef : String
deriving DecidableEq, Repr

/-- Prefixes a non-primary image name unless it is a bare digest (spec
invariant: digests returned by backends are passed through unchanged). -/
def encodeImageName (sel img : String) : String :=
  if isDigest img then img else encodeImage sel img

/-- Response rewriting for one container: ids and the image name are
prefixed; the `ImageRef` field is left unprefixed (spec 4.5). -/
def encodeContainer (sel : String) (c : Container) : Container :=
  { Id := encodeId sel c.Id
    PodSandboxId := encodeId sel c.PodSandboxId
    Image := encodeImageName sel c.Image
    ImageRef := c.ImageRef }

/-- The `ListContainers` filter: empty strings mean unset; `State` stands
for the remaining filter fields the routing never inspects. -/
structure ContainerFilter where
  Id : String
  PodSandboxId : String
  State : Option Nat
deriving DecidableEq, Repr

/-- The `ListContainerStats` filter. -/
structure ContainerStatsFilter where
  Id : String
  PodSandboxId : String
deriving DecidableEq, Repr

/-- Routing decision of a fan-out list request. -/
inductive ListTarget
  | contradictory
  | single (sel : String)
  | fanout
deriving DecidableEq, Repr

/-- Modelled from the spec: when the filter constrains by id and/or
sandbox id, the decoded selectors choose a single backend; if they
disagree the request short-circuits; with no constraint the request fans
out (spec 4.5). -/
def listTargetFor (id podSandboxId : String) : ListTarget :=
  if id != "" && podSandboxId != "" then
    if (decodeId id).1 == (decodeId podSandboxId).1 then
      ListTarget.single (decodeId id).1
    else ListTarget.contradictory
  else if id != "" then ListTarget.single (decodeId id).1
  else if podSandboxId != "" then ListTarget.single (decodeId podSandboxId).1
  else ListTarget.fanout

/-- Strips the selector prefixes from a container filter before it is
forwarded. -/
def stripContainerFilter (f : ContainerFilter) : ContainerFilter :=
  { Id := (decodeId f.Id).2
    PodSandboxId := (decodeId f.PodSandboxId).2
    State := f.State }

/-- Strips the selector prefixes from a container-stats filter. -/
def stripStatsFilter (f : ContainerStatsFilter) : ContainerStatsFilter :=
  { Id := (decodeId f.Id).2
    PodSandboxId := (decodeId f.PodSandboxId).2 }

/-- Modelled from the spec: `ListContainers`.  A contradictory filter
yields an empty response with no backend calls; a single-backend filter
is forwarded stripped to the chosen backend; otherwise the request fans
out to the ready backends in registration order (spec 4.5/7). -/
def listContainers (r : Registry) (ready : String → Bool)
    (backend : String → ContainerFilter → List Container)
    (f : ContainerFilter) : List Container × List String :=
  match listTargetFor f.Id f.PodSandboxId with
  | ListTarget.contradictory => ([], [])
  | ListTarget.single sel =>
      ((backend sel (stripContainerFilter f)).map (encodeContainer sel), [sel])
  | ListTarget.fanout =>
      let sels := r.selectors.filter ready
      ((sels.map (fun sel => (backend sel f).map (encodeContainer sel))).flatten, sels)

/-- Container stats as they appear in `ListContainerStats` responses;
`Payload` stands for the stats fields the proxy never rewrites. -/
structure ContainerStats where
  Id : String
  Payload : Nat
deriving DecidableEq, Repr

/-- Response rewriting for container stats: only the id is prefixed. -/
def encodeContainerStats (sel : String) (s : ContainerStats) : ContainerStats :=
  { Id := encodeId sel s.Id
    Payload := s.Payload }

/-- Modelled from the spec: `ListContainerStats`, routed exactly like
`ListContainers` (spec 4.5/7). -/
def listContainerStats (r : Registry) (ready : String → Bool)
    (backend : String → ContainerStatsFilter → List ContainerStats)
    (f : ContainerStatsFilter) : List ContainerStats × List String :=
  match listTargetFor f.Id f.PodSandboxId with
  | ListTarget.contradictory => ([], [])
  | ListTarget.single sel =>
      ((backend sel (stripStatsFilter f)).map (encodeContainerStats sel), [sel])
  | ListTarget.fanout =>
      let sels := r.selectors.filter ready
      ((sels.map (fun sel => (backend sel f).map (encodeContainerStats sel))).flatten, sels)

/-- An image as it appears in `ListImages` and `ImageStatus` responses. -/
structure Image where
  Id : String
  RepoTags : List String
  Size : Nat
deriving DecidableEq, Repr

/-- Response rewriting for one image: the id and the repo tags are
prefixed for a non-primary backend (digest ids pass through). -/
def encodeImageObj (sel : String) (i : Image) : Image :=
  { Id := encodeImageName sel i.Id
    RepoTags := i.RepoTags.map (encodeImageName sel)
    Size := i.Size }

/-- Modelled from the spec: `ListImages`.  With no image filter the
request fans out to the ready backends in registration order and the
merged items are prefixed; with an image filter the request is routed to
the backend decoded from the reference, and an unreachable backend yields
an empty response with no calls (spec 4.5/7, test scenario 6).
`backend sel img` is the image list of backend `sel` under the stripped
filter `img` (`""` meaning no filter). -/
def listImages (r : Registry) (ready : String → Bool)
    (backend : String → String → List Image)
    (filterImage : String) : List Image × List String :=
  if filterImage == "" then
    let sels := r.selectors.filter ready
    ((sels.map (fun sel => (backend sel "").map (encodeImageObj sel))).flatten, sels)
  else
    let im := decodeImage r filterImage
    if ready im.1 then
      ((backend im.1 im.2).map (encodeImageObj im.1), [im.1])
    else ([], [])

/-- Modelled from the spec: `ImageStatus` routes to the backend decoded
from the reference with the prefix stripped; the reply image is
re-prefixed; a nonexistent image or an unreachable backend yields an
empty response (spec 4.5/7, test scenario 6). -/
def imageStatus (r : Registry) (ready : String → Bool)
    (backend : String → String → Option Image)
    (ref : String) : Option Image × List String :=
  let im := decodeImage r ref
  if ready im.1 then
    match backend im.1 im.2 with
    | some img => (some (encodeImageObj im.1 img), [im.1])
    | none => (none, [im.1])
  else (none, [])

/-- Modelled from the spec: `PullImage` routes to the backend decoded
from the reference, strips the prefix on the way out, and prefixes the
returned `ImageRef` with the selector (spec 4.5).  `backend sel img` is
the image ref the backend returns for the stripped reference. -/
def pullImage (r : Registry) (backend : String → String → String)
    (ref : String) : String × List String :=
  let im := decodeImage r ref
  (encodeImageName im.1 (backend im.1 im.2), [im.1])

/-- The parts of a `ContainerStatus` response the proxy rewrites. -/
structure ContainerStatusInfo where
  Id : String
  Image : String
  ImageRef : String
deriving DecidableEq, Repr

/-- Modelled from the spec: `ContainerStatus` routes by the decoded
container id; the reply's id is re-prefixed, the image name is
re-prefixed, and `ImageRef` is left unprefixed (spec 4.5). -/
def containerStatus (backend : String → String → ContainerStatusInfo)
    (containerId : String) : ContainerStatusInfo × List String :=
  let cd := decodeId containerId
  let st := backend cd.1 cd.2
  ({ Id := encodeId cd.1 st.Id
     Image := encodeImageName cd.1 st.Image
     ImageRef := st.ImageRef }, [cd.1])

/-- The image lists the two fake backends of the repository's tests
serve for an unfiltered request: `image1-1`/`image1-2` of size 424242 on
the primary, `image2-1`/`image2-2` of size 434343 on `alt`. -/
def testImagesBackend : String → String → List Image :=
  fun sel _ =>
    if sel == "" then
      [{ Id := "image1-1", RepoTags := ["image1-1"], Size := 424242 },
       { Id := "image1-2", RepoTags := ["image1-2"], Size := 424242 }]
    else if sel == "alt" then
      [{ Id := "image2-1", RepoTags := ["image2-1"], Size := 434343 },
       { Id := "image2-2", RepoTags := ["image2-2"], Size := 434343 }]
    else []

/- ## Theorems: version adapter -/

/-- Claim C7 counterexample: the upgrade/downgrade round trip does not
hold for a v1 `FilesystemUsage` with a non-empty `StorageId`; the field
is dropped. -/
theorem fsUsage_roundtrip_counterexample :
    Convert_v1_12_FilesystemUsage_To_v1_9_FilesystemUsage
        (Convert_v1_9_FilesystemUsage_To_v1_12_FilesystemUsage
          { Timestamp := 0
            StorageId := some "e4080efe-834f-4c1e-a455-656bbcef7486"
            UsedBytes := none
            InodesUsed := none }) ≠
      { Timestamp := 0
        StorageId := some "e4080efe-834f-4c1e-a455-656bbcef7486"
        UsedBytes := none
        InodesUsed := none } := by
  decide

/-- Claim C7 (amended): `downgrade(upgrade(x)) = x` holds for every v1
`NamespaceOption`, and for a v1 `FilesystemUsage` exactly when its
v1-only `StorageId` field is unset (the conversions drop it in both
directions). -/
theorem version_roundtrip_representable (n : NamespaceOption_v1_9)
    (f : FilesystemUsage_v1_9) (h : f.StorageId = none) :
    Convert_v1_12_NamespaceOption_To_v1_9_NamespaceOption
        (Convert_v1_9_NamespaceOption_To_v1_12_NamespaceOption n) = n ∧
    Convert_v1_12_FilesystemUsage_To_v1_9_FilesystemUsage
        (Convert_v1_9_FilesystemUsage_To_v1_12_FilesystemUsage f) = f := by
  constructor
  · obtain ⟨a, b, c⟩ := n
    cases a <;> cases b <;> cases c <;> rfl
  · obtain ⟨t, s, u, i⟩ := f
    simp only at h
    subst h
    rfl

/-- Claim C7 witness: the round trip evaluated at a concrete
`NamespaceOption` and a concrete `FilesystemUsage` with unset
`StorageId`. -/
theorem version_roundtrip_representable_witness :
    Convert_v1_12_NamespaceOption_To_v1_9_NamespaceOption
        (Convert_v1_9_NamespaceOption_To_v1_12_NamespaceOption
          { HostNetwork := true, HostPid := false, HostIpc := true }) =
      { HostNetwork := true, HostPid := false, HostIpc := true } ∧
    Convert_v1_12_FilesystemUsage_To_v1_9_FilesystemUsage
        (Convert_v1_9_FilesystemUsage_To_v1_12_FilesystemUsage
          { Timestamp := 5, StorageId := none
            UsedBytes := some 424242, InodesUsed := some 3 }) =
      { Timestamp := 5, StorageId := none
        UsedBytes := some 424242, InodesUsed := some 3 } :=
  version_roundtrip_representable
    { HostNetwork := true, HostPid := false, HostIpc := true }
    { Timestamp := 5, StorageId := none
      UsedBytes := some 424242, InodesUsed := some 3 } rfl

/-- Claim C8: downgrading a v2 `NamespaceOption` sets each v1 boolean to
true exactly when the corresponding v2 mode is `NODE`; in particular
`CONTAINER` downgrades to the same v1 value as `POD`. -/
theorem namespaceOption_downgrade_node_mapping (o : NamespaceOption_v1_12) :
    ((Convert_v1_12_NamespaceOption_To_v1_9_NamespaceOption o).HostNetwork = true ↔
      o.Network = NamespaceMode.NODE) ∧
    ((Convert_v1_12_NamespaceOption_To_v1_9_NamespaceOption o).HostPid = true ↔
      o.Pid = NamespaceMode.NODE) ∧
    ((Convert_v1_12_NamespaceOption_To_v1_9_NamespaceOption o).HostIpc = true ↔
      o.Ipc = NamespaceMode.NODE) ∧
    (∀ p i, Convert_v1_12_NamespaceOption_To_v1_9_NamespaceOption
        { Network := NamespaceMode.CONTAINER, Pid := p, Ipc := i } =
      Convert_v1_12_NamespaceOption_To_v1_9_NamespaceOption
        { Network := NamespaceMode.POD, Pid := p, Ipc := i }) := by
  refine ⟨?_, ?_, ?_, ?_⟩
  · simp [Convert_v1_12_NamespaceOption_To_v1_9_NamespaceOption]
  · simp [Convert_v1_12_NamespaceOption_To_v1_9_NamespaceOption]
  · simp [Convert_v1_12_NamespaceOption_To_v1_9_NamespaceOption]
  · intro p i
    rfl

/-- Claim C9: both `FilesystemUsage` conversions drop the
version-specific storage identifier and leave `Timestamp`, `UsedBytes`
and `InodesUsed` unchanged. -/
theorem filesystemUsage_conversion_drop_fields (u : FilesystemUsage_v1_12)
    (v : FilesystemUsage_v1_9) :
    (Convert_v1_12_FilesystemUsage_To_v1_9_FilesystemUsage u).StorageId = none ∧
    (Convert_v1_12_FilesystemUsage_To_v1_9_FilesystemUsage u).Timestamp = u.Timestamp ∧
    (Convert_v1_12_FilesystemUsage_To_v1_9_FilesystemUsage u).UsedBytes = u.UsedBytes ∧
    (Convert_v1_12_FilesystemUsage_To_v1_9_FilesystemUsage u).InodesUsed = u.InodesUsed ∧
    (Convert_v1_9_FilesystemUsage_To_v1_12_FilesystemUsage v).FsId = none ∧
    (Convert_v1_9_FilesystemUsage_To_v1_12_FilesystemUsage v).Timestamp = v.Timestamp ∧
    (Convert_v1_9_FilesystemUsage_To_v1_12_FilesystemUsage v).UsedBytes = v.UsedBytes ∧
    (Convert_v1_9_FilesystemUsage_To_v1_12_FilesystemUsage v).InodesUsed = v.InodesUsed :=
  ⟨rfl, rfl, rfl, rfl, rfl, rfl, rfl, rfl⟩

/- ## Theorems: sandbox and container dispatch -/

/-- Claim C1: `RunPodSandbox` with a registered non-primary selector in
the target-runtime annotation is forwarded only to that backend and the
returned sandbox id is prefixed with `sel ++ "__"`; with an absent or
empty annotation only the primary is contacted and the id is returned
unprefixed. -/
theorem runPodSandbox_selector_dispatch (r : Registry)
    (backend : String → String) (req : RunPodSandboxRequest) :
    (∀ sel, annotValue req.annots targetRuntimeKey = sel → sel ≠ "" →
      r.has sel = true →
      runPodSandbox r backend req =
        (ProxyResult.ok (sel ++ "__" ++ backend sel), [sel])) ∧
    (annotValue req.annots targetRuntimeKey = "" →
      runPodSandbox r backend req = (ProxyResult.ok (backend ""), [""])) := by
  constructor
  · intro sel hsel hne hreg
    simp [runPodSandbox, hsel, hreg, encodeId, hne]
  · intro hsel
    simp [runPodSandbox, hsel, encodeId]

/-- Claim C1 witness: the test scenario, annotation `alt` on the test
registry, yielding the prefixed sandbox id and contacting only `alt`. -/
theorem runPodSandbox_selector_dispatch_witness :
    runPodSandbox testRegistry
        (fun _ => "pod-2-1_default_927a91df-f4d3-49a9-a257-5ca7f16f85fc_0")
        { annots := [("kubernetes.io/target-runtime", "alt")] } =
      (ProxyResult.ok "alt__pod-2-1_default_927a91df-f4d3-49a9-a257-5ca7f16f85fc_0",
        ["alt"]) :=
  (runPodSandbox_selector_dispatch testRegistry
      (fun _ => "pod-2-1_default_927a91df-f4d3-49a9-a257-5ca7f16f85fc_0")
      { annots := [("kubernetes.io/target-runtime", "alt")] }).1
    "alt" (by decide) (by decide) (by decide)

/-- Claim C2: `RunPodSandbox` with an unregistered non-empty selector in
the annotation fails with the `unknown runtime` error naming the literal
annotation value, and no backend is contacted. -/
theorem runPodSandbox_unknown_runtime (r : Registry)
    (backend : String → String) (req : RunPodSandboxRequest) (sel : String)
    (hsel : annotValue req.annots targetRuntimeKey = sel)
    (hne : sel ≠ "") (hreg : r.has sel = false) :
    runPodSandbox r backend req =
      (ProxyResult.err ("criproxy: unknown runtime: \"" ++ sel ++ "\""), []) := by
  simp [runPodSandbox, hsel, hne, hreg, unknownRuntimeError]

/-- Claim C2 witness: the test scenario, annotation `badruntime`. -/
theorem runPodSandbox_unknown_runtime_witness :
    runPodSandbox testRegistry (fun _ => "x")
        { annots := [("kubernetes.io/target-runtime", "badruntime")] } =
      (ProxyResult.err "criproxy: unknown runtime: \"badruntime\"", []) :=
  runPodSandbox_unknown_runtime testRegistry (fun _ => "x")
    { annots := [("kubernetes.io/target-runtime", "badruntime")] }
    "badruntime" (by decide) (by decide) (by decide)

/-- Claim C3: `CreateContainer` fails with the `wrong runtime` error and
invokes no backend when the non-digest image's decoded selector differs
from the sandbox id's selector; a bare digest image matches any sandbox
selector, the request is forwarded to the sandbox's backend, and the
returned container id is re-prefixed with the sandbox selector. -/
theorem createContainer_image_runtime_check (r : Registry)
    (backend : String → String → String → String) (podSandboxId image : String) :
    (isDigest image = false →
      (decodeImage r image).1 ≠ (decodeId podSandboxId).1 →
      createContainer r backend podSandboxId image =
        (ProxyResult.err ("criproxy: image \"" ++ image ++ "\" is for a wrong runtime"),
          [])) ∧
    (isDigest image = true →
      createContainer r backend podSandboxId image =
        (ProxyResult.ok (encodeId (decodeId podSandboxId).1
            (backend (decodeId podSandboxId).1 (decodeId podSandboxId).2
              (decodeImage r image).2)),
          [(decodeId podSandboxId).1])) := by
  constructor
  · intro hd hneq
    simp [createContainer, hd, hneq, wrongRuntimeError]
  · intro hd
    simp [createContainer, hd]

/-- Claim C3 witness: the test scenario, sandbox id prefixed `alt__` with
the primary-namespace image `image1-2` erroring, and with the sample bare
digest forwarded to `alt` and re-prefixed. -/
theorem createContainer_image_runtime_check_witness :
    createContainer testRegistry (fun _ _ _ => "c")
        "alt__pod-2-1_default_927a91df-f4d3-49a9-a257-5ca7f16f85fc_0" "image1-2" =
      (ProxyResult.err "criproxy: image \"image1-2\" is for a wrong runtime", []) ∧
    createContainer testRegistry
        (fun _ sandboxInner _ => sandboxInner ++ "_container3_0")
        "alt__pod-2-1_default_927a91df-f4d3-49a9-a257-5ca7f16f85fc_0"
        "sha256:80f249cf98e79e376b13b75f52e9859daf6a6b4bade536be70fc14c2621913f0" =
      (ProxyResult.ok
          "alt__pod-2-1_default_927a91df-f4d3-49a9-a257-5ca7f16f85fc_0_container3_0",
        ["alt"]) :=
  ⟨(createContainer_image_runtime_check testRegistry (fun _ _ _ => "c")
      "alt__pod-2-1_default_927a91df-f4d3-49a9-a257-5ca7f16f85fc_0" "image1-2").1
      (by decide) (by decide),
   (createContainer_image_runtime_check testRegistry
      (fun _ sandboxInner _ => sandboxInner ++ "_container3_0")
      "alt__pod-2-1_default_927a91df-f4d3-49a9-a257-5ca7f16f85fc_0"
      "sha256:80f249cf98e79e376b13b75f52e9859daf6a6b4bade536be70fc14c2621913f0").2
      (by decide)⟩

/-- Claim C4: a `ListContainers` or `ListContainerStats` filter carrying
both a container id and a sandbox id that decode to different selectors
yields an empty successful response and invokes zero backends, whatever
the other filter fields hold. -/
theorem contradictory_filter_short_circuit (r : Registry)
    (ready : String → Bool)
    (bc : String → ContainerFilter → List Container)
    (bs : String → ContainerStatsFilter → List ContainerStats)
    (f : ContainerFilter) (g : ContainerStatsFilter)
    (hf1 : f.Id ≠ "") (hf2 : f.PodSandboxId ≠ "")
    (hf : (decodeId f.Id).1 ≠ (decodeId f.PodSandboxId).1)
    (hg1 : g.Id ≠ "") (hg2 : g.PodSandboxId ≠ "")
    (hg : (decodeId g.Id).1 ≠ (decodeId g.PodSandboxId).1) :
    listContainers r ready bc f = ([], []) ∧
    listContainerStats r ready bs g = ([], []) := by
  have ht : ∀ i p, i ≠ "" → p ≠ "" → (decodeId i).1 ≠ (decodeId p).1 →
      listTargetFor i p = ListTarget.contradictory := by
    intro i p h1 h2 h3
    simp [listTargetFor, h1, h2, h3]
  constructor
  · unfold listContainers
    rw [ht f.Id f.PodSandboxId hf1 hf2 hf]
  · unfold listContainerStats
    rw [ht g.Id g.PodSandboxId hg1 hg2 hg]

/-- Claim C4 witness: the test scenario, primary container id together
with the `alt`-prefixed sandbox id (with a `State` field set), against
backends that would return items if they were invoked. -/
theorem contradictory_filter_short_circuit_witness :
    listContainers testRegistry (fun _ => true)
        (fun _ _ => [{ Id := "c", PodSandboxId := "p", Image := "i", ImageRef := "i" }])
        { Id := "pod-1-1_default_4bde9008-4663-4342-84ed-310cea787f95_0_container1_0"
          PodSandboxId := "alt__pod-2-1_default_927a91df-f4d3-49a9-a257-5ca7f16f85fc_0"
          State := some 0 } = ([], []) ∧
    listContainerStats testRegistry (fun _ => true)
        (fun _ _ => [{ Id := "c", Payload := 1 }])
        { Id := "pod-1-1_default_4bde9008-4663-4342-84ed-310cea787f95_0_container1_0"
          PodSandboxId := "alt__pod-2-1_default_927a91df-f4d3-49a9-a257-5ca7f16f85fc_0" } =
      ([], []) :=
  contradictory_filter_short_circuit testRegistry (fun _ => true)
    (fun _ _ => [{ Id := "c", PodSandboxId := "p", Image := "i", ImageRef := "i" }])
    (fun _ _ => [{ Id := "c", Payload := 1 }])
    { Id := "pod-1-1_default_4bde9008-4663-4342-84ed-310cea787f95_0_container1_0"
      PodSandboxId := "alt__pod-2-1_default_927a91df-f4d3-49a9-a257-5ca7f16f85fc_0"
      State := some 0 }
    { Id := "pod-1-1_default_4bde9008-4663-4342-84ed-310cea787f95_0_container1_0"
      PodSandboxId := "alt__pod-2-1_default_927a91df-f4d3-49a9-a257-5ca7f16f85fc_0" }
    (by decide) (by decide) (by decide) (by decide) (by decide) (by decide)

/- ## Theorems: fan-out listings and image dispatch -/

/-- Helper: primary image names are left unchanged. -/
theorem encodeImageName_primary (img : String) : encodeImageName "" img = img := by
  unfold encodeImageName encodeImage
  cases isDigest img <;> simp

/-- Helper: a list of primary image names is left unchanged. -/
theorem map_encodeImageName_primary (l : List String) :
    l.map (encodeImageName "") = l := by
  induction l with
  | nil => rfl
  | cons a t ih => simp [encodeImageName_primary, ih]

/-- Helper: primary images are left unchanged by the response
rewriting. -/
theorem encodeImageObj_primary (i : Image) : encodeImageObj "" i = i := by
  simp [encodeImageObj, encodeImageName_primary, map_encodeImageName_primary]

/-- Helper: a list of primary images is left unchanged by the response
rewriting. -/
theorem map_encodeImageObj_primary (l : List Image) :
    l.map (encodeImageObj "") = l := by
  induction l with
  | nil => rfl
  | cons a t ih => simp [encodeImageObj_primary, ih]

/-- Claim C5: an unfiltered `ListImages` with all backends ready merges
the backends' lists in registration order, preserving each backend's
internal order; primary images are unchanged and non-primary,
non-digest ids and repo tags get the `sel ++ "/"` marker. -/
theorem listImages_fanout_merge_order (r : Registry) (ready : String → Bool)
    (backend : String → String → List Image)
    (hready : ∀ sel ∈ r.selectors, ready sel = true) :
    listImages r ready backend "" =
      ((r.selectors.map
          (fun sel => (backend sel "").map (encodeImageObj sel))).flatten,
        r.selectors) ∧
    (∀ i, encodeImageObj "" i = i) ∧
    (∀ sel i, sel ≠ "" → isDigest i.Id = false →
      (∀ t ∈ i.RepoTags, isDigest t = false) →
      encodeImageObj sel i =
        { Id := sel ++ "/" ++ i.Id
          RepoTags := i.RepoTags.map (fun t => sel ++ "/" ++ t)
          Size := i.Size }) := by
  refine ⟨?_, encodeImageObj_primary, ?_⟩
  · have hf : r.selectors.filter ready = r.selectors :=
      List.filter_eq_self.mpr hready
    simp [listImages, hf]
  · intro sel i hne hd ht
    have hid : encodeImageName sel i.Id = sel ++ "/" ++ i.Id := by
      simp [encodeImageName, hd, encodeImage, hne]
    have htags : i.RepoTags.map (encodeImageName sel) =
        i.RepoTags.map (fun t => sel ++ "/" ++ t) := by
      apply List.map_congr_left
      intro t hmem
      simp [encodeImageName, ht t hmem, encodeImage, hne]
    simp [encodeImageObj, hid, htags]

/-- Claim C5 witness: the test scenario, both backends ready, merging to
exactly the four images in registration order with `alt/` markers. -/
theorem listImages_fanout_merge_order_witness :
    listImages testRegistry (fun _ => true) testImagesBackend "" =
      ([{ Id := "image1-1", RepoTags := ["image1-1"], Size := 424242 },
        { Id := "image1-2", RepoTags := ["image1-2"], Size := 424242 },
        { Id := "alt/image2-1", RepoTags := ["alt/image2-1"], Size := 434343 },
        { Id := "alt/image2-2", RepoTags := ["alt/image2-2"], Size := 434343 }],
        ["", "alt"]) := by
  have h := (listImages_fanout_merge_order testRegistry (fun _ => true)
    testImagesBackend (fun _ _ => rfl)).1
  rw [h]
  decide

/-- Claim C6: with the non-primary backend `sel` disconnected, an
unfiltered `ListImages` fan-out succeeds and returns exactly the primary
backend's items, while an `ImageStatus` or a selector-filtered
`ListImages` for a reference that decodes to `sel` returns an empty
successful response with zero backend calls. -/
theorem degraded_backend_skip (sel ref : String) (ready : String → Bool)
    (bL : String → String → List Image) (bS : String → String → Option Image)
    (hp : ready "" = true) (hs : ready sel = false) (hne : sel ≠ "")
    (hdec : (decodeImage (Registry.mk ["", sel]) ref).1 = sel) :
    listImages (Registry.mk ["", sel]) ready bL "" = (bL "" "", [""]) ∧
    imageStatus (Registry.mk ["", sel]) ready bS ref = (none, []) ∧
    listImages (Registry.mk ["", sel]) ready bL ref = ([], []) := by
  have href : ref ≠ "" := by
    intro hcase
    rw [hcase] at hdec
    exact hne hdec.symm
  have hb : (ref == "") = false := beq_eq_false_iff_ne.mpr href
  refine ⟨?_, ?_, ?_⟩
  · have hfilter : List.filter ready ["", sel] = [""] := by
      simp [List.filter, hp, hs]
    simp [listImages, hfilter, map_encodeImageObj_primary]
  · simp [imageStatus, hdec, hs]
  · simp [listImages, hb, hdec, hs]

/-- Claim C6 witness: the test scenario with `alt` disconnected: the
unfiltered list yields only the primary's two images, and both the
`ImageStatus` and the filtered `ListImages` for `alt/image2-1` come back
empty with no backend contacted. -/
theorem degraded_backend_skip_witness :
    listImages testRegistry (fun s => s == "") testImagesBackend "" =
      ([{ Id := "image1-1", RepoTags := ["image1-1"], Size := 424242 },
        { Id := "image1-2", RepoTags := ["image1-2"], Size := 424242 }], [""]) ∧
    imageStatus testRegistry (fun s => s == "")
        (fun _ i => some { Id := i, RepoTags := [i], Size := 434343 })
        "alt/image2-1" = (none, []) ∧
    listImages testRegistry (fun s => s == "") testImagesBackend "alt/image2-1" =
      ([], []) := by
  have h := degraded_backend_skip "alt" "alt/image2-1" (fun s => s == "")
    testImagesBackend (fun _ i => some { Id := i, RepoTags := [i], Size := 434343 })
    rfl rfl (by decide) (by decide)
  obtain ⟨h1, h2, h3⟩ := h
  refine ⟨?_, h2, h3⟩
  unfold testRegistry
  rw [h1]
  decide

/-- Claim C10: `PullImage` for a reference carrying a registered
non-primary selector strips the marker before forwarding and re-prefixes
the returned `ImageRef` with `sel ++ "/"`, while the `ImageRef` fields of
container status and container list responses are left unprefixed. -/
theorem pullImage_ref_encoding (r : Registry)
    (bPull : String → String → String)
    (bStatus : String → String → ContainerStatusInfo)
    (ref sel inner containerId : String)
    (hdec : decodeImage r ref = (sel, inner)) (hne : sel ≠ "")
    (hnd : isDigest (bPull sel inner) = false) :
    pullImage r bPull ref = (sel ++ "/" ++ bPull sel inner, [sel]) ∧
    (containerStatus bStatus containerId).1.ImageRef =
      (bStatus (decodeId containerId).1 (decodeId containerId).2).ImageRef ∧
    (∀ s c, (encodeContainer s c).ImageRef = c.ImageRef) := by
  refine ⟨?_, rfl, fun s c => rfl⟩
  unfold pullImage
  rw [hdec]
  simp [encodeImageName, encodeImage, hnd, hne]

/-- Claim C10 witness: the test scenario, pulling `alt/image2-3` returns
`ImageRef` `alt/image2-3`, while a container status on an `alt__` id
keeps its backend `ImageRef` unprefixed. -/
theorem pullImage_ref_encoding_witness :
    pullImage testRegistry (fun _ i => i) "alt/image2-3" =
      ("alt/image2-3", ["alt"]) ∧
    (containerStatus
        (fun _ _ => { Id := "c", Image := "image2-1", ImageRef := "image2-1" })
        "alt__pod-2-1_default_927a91df-f4d3-49a9-a257-5ca7f16f85fc_0_container2_0").1.ImageRef =
      "image2-1" := by
  have h := pullImage_ref_encoding testRegistry (fun _ i => i)
    (fun _ _ => { Id := "c", Image := "image2-1", ImageRef := "image2-1" })
    "alt/image2-3" "alt" "image2-3"
    "alt__pod-2-1_default_927a91df-f4d3-49a9-a257-5ca7f16f85fc_0_container2_0"
    (by decide) (by decide) (by decide)
  exact ⟨h.1, h.2.1⟩
